import Mathlib

/-!
Verification of the custom-models subsystem of MoneyPrinterTurbo
(`app/services/custom_models.py` and `app/controllers/v1/custom_models.py`).

Python strings are modelled as lists of Unicode code points (`Str`), Python
dicts as association lists with unique keys, and the fallible pieces
(`HTTPException`, the third-party model loader and pipelines) as `Except`
values and abstract functions.
-/

set_option maxRecDepth 8192

namespace MPT

/-- A Python string: the list of its Unicode code points. -/
abbrev Str := List Nat

/-- Code points of a Lean string literal, used to transcribe the Python
string literals of the source. -/
def pyStr (s : String) : Str := s.toList.map Char.toNat

/-- Python `str.lower` on one code point (ASCII case mapping, the only case
the source's keywords exercise). -/
def lowerChar (c : Nat) : Nat := if 65 ≤ c ∧ c ≤ 90 then c + 32 else c

/-- Python `str.lower`. -/
def lower (s : Str) : Str := s.map lowerChar

/-- Python `str` whitespace, as `str.strip` and `str.split` see it. -/
def isWs (c : Nat) : Bool := c == 32 || c == 9 || c == 10 || c == 13 || c == 11 || c == 12

/-- Python `str.strip()`: drop whitespace from both ends. -/
def strip (s : Str) : Str := ((s.dropWhile isWs).reverse.dropWhile isWs).reverse

/-- Python `s.startswith(pat)`: `begins pat s` is true when `s` starts with `pat`. -/
def begins : Str → Str → Bool
  | [], _ => true
  | _ :: _, [] => false
  | a :: as, b :: bs => a == b && begins as bs

/-- Python `pat in s` on strings: substring containment. -/
def inStr (pat : Str) : Str → Bool
  | [] => begins pat []
  | c :: t => begins pat (c :: t) || inStr pat t

/-- The number of words of Python `s.split()` (split on whitespace runs,
empty chunks discarded): `inWord` records whether the previous code point
was inside a word. -/
def wordCountAux (inWord : Bool) : Str → Nat
  | [] => 0
  | c :: cs =>
    if isWs c then wordCountAux false cs
    else (if inWord then 0 else 1) + wordCountAux true cs

/-- `len(s.split())` for a Python string `s`. -/
def wordCount (s : Str) : Nat := wordCountAux false s

/-- Python `sep.join(parts)`. -/
def joinSep (sep : Str) : List Str → Str
  | [] => []
  | [x] => x
  | x :: y :: t => x ++ sep ++ joinSep sep (y :: t)

/-- Python list slicing `l[:n]` for an `int` bound `n` (a negative bound
counts from the end; `Int.toNat` clamps an out-of-range start to the empty
slice exactly as Python does). -/
def pySliceTo (n : Int) (l : List α) : List α :=
  l.take (if n < 0 then ((l.length : Int) + n).toNat else n.toNat)

/-- Python `d[k]` / `k in d` read side of a dict with `Str` keys. -/
def lookupD : List (Str × α) → Str → Option α
  | [], _ => none
  | (k', v) :: t, k => if k' = k then some v else lookupD t k

/-- Replacement of one binding when Python `d[k] = v` hits an existing key. -/
def setEntry (k : Str) (v : α) (p : Str × α) : Str × α :=
  if p.1 = k then (k, v) else p

/-- Python `d[k] = v`: replace the value under an existing key in place,
otherwise append the new binding. -/
def dictSet (d : List (Str × α)) (k : Str) (v : α) : List (Str × α) :=
  if (lookupD d k).isSome then d.map (setEntry k v)
  else d ++ [(k, v)]

/-- Python `del d[k]` on a dict (keys are unique, so removing every binding
of `k` is the dict deletion). -/
def dictDel : List (Str × α) → Str → List (Str × α)
  | [], _ => []
  | (k', v) :: t, k => if k' = k then dictDel t k else (k', v) :: dictDel t k

/-- Python `x in l` for a list of strings. -/
def listHas : List Str → Str → Bool
  | [], _ => false
  | y :: t, x => if y = x then true else listHas t x

theorem lowerChar_idem (c : Nat) : lowerChar (lowerChar c) = lowerChar c := by
  unfold lowerChar
  split
  · rw [if_neg]; omega
  · rfl

theorem lower_idem (s : Str) : lower (lower s) = lower s := by
  induction s with
  | nil => rfl
  | cons c t ih => simp [lower, lowerChar_idem]

theorem lower_fixed_head (c : Nat) (r : Str) (h : lower (c :: r) = c :: r) :
    lowerChar c = c := by
  have h2 := congrArg List.head? h
  simp only [lower, List.map_cons, List.head?_cons, Option.some.injEq] at h2
  exact h2

theorem lowerChar_fixed_ne_E (c : Nat) (h : lowerChar c = c) : c ≠ 69 := by
  intro hc
  subst hc
  unfold lowerChar at h
  rw [if_pos (by omega)] at h
  omega

theorem setEntry_hit (k : Str) (v : α) (p : Str × α) (h : p.1 = k) :
    setEntry k v p = (k, v) := by
  simp [setEntry, h]

theorem setEntry_miss (k : Str) (v : α) (p : Str × α) (h : ¬p.1 = k) :
    setEntry k v p = p := by
  simp [setEntry, h]

theorem lookupD_map_set (d : List (Str × α)) (k : Str) (v : α)
    (h : (lookupD d k).isSome) :
    lookupD (d.map (setEntry k v)) k = some v := by
  induction d with
  | nil => simp [lookupD] at h
  | cons p t ih =>
    obtain ⟨a, b⟩ := p
    by_cases ha : a = k
    · rw [List.map_cons, setEntry_hit k v (a, b) ha]
      simp [lookupD]
    · simp only [lookupD, ha, if_false] at h
      rw [List.map_cons, setEntry_miss k v (a, b) ha]
      simpa [lookupD, ha] using ih h

theorem lookupD_map_set_ne (d : List (Str × α)) (k k' : Str) (v : α) (h : k' ≠ k) :
    lookupD (d.map (setEntry k v)) k' = lookupD d k' := by
  induction d with
  | nil => rfl
  | cons p t ih =>
    obtain ⟨a, b⟩ := p
    by_cases ha : a = k
    · rw [List.map_cons, setEntry_hit k v (a, b) ha]
      have hk : ¬k = k' := fun hh => h hh.symm
      have ha' : ¬a = k' := by rw [ha]; exact hk
      simp [lookupD, hk, ha', ih]
    · rw [List.map_cons, setEntry_miss k v (a, b) ha]
      by_cases ha' : a = k'
      · simp [lookupD, ha']
      · simp [lookupD, ha', ih]

theorem lookupD_append_single (d : List (Str × α)) (k : Str) (v : α)
    (h : lookupD d k = none) :
    lookupD (d ++ [(k, v)]) k = some v := by
  induction d with
  | nil => simp [lookupD]
  | cons p t ih =>
    obtain ⟨a, b⟩ := p
    by_cases ha : a = k
    · simp [lookupD, ha] at h
    · simp only [lookupD, ha, if_false] at h
      simpa [lookupD, ha] using ih h

theorem lookupD_append_single_ne (d : List (Str × α)) (k k' : Str) (v : α)
    (h : k' ≠ k) :
    lookupD (d ++ [(k, v)]) k' = lookupD d k' := by
  have hk : ¬k = k' := fun hh => h hh.symm
  induction d with
  | nil => simp [lookupD, hk]
  | cons p t ih =>
    obtain ⟨a, b⟩ := p
    by_cases ha : a = k'
    · simp [lookupD, ha]
    · simp [lookupD, ha, ih]

theorem lookupD_dictSet_self (d : List (Str × α)) (k : Str) (v : α) :
    lookupD (dictSet d k v) k = some v := by
  unfold dictSet
  split
  · exact lookupD_map_set d k v (by assumption)
  · rename_i hnone
    refine lookupD_append_single d k v ?_
    cases hcase : lookupD d k with
    | none => rfl
    | some w => rw [hcase] at hnone; simp at hnone

theorem lookupD_dictSet_ne (d : List (Str × α)) (k k' : Str) (v : α) (h : k' ≠ k) :
    lookupD (dictSet d k v) k' = lookupD d k' := by
  unfold dictSet
  split
  · exact lookupD_map_set_ne d k k' v h
  · exact lookupD_append_single_ne d k k' v h

theorem lookupD_dictDel_self (d : List (Str × α)) (k : Str) :
    lookupD (dictDel d k) k = none := by
  induction d with
  | nil => rfl
  | cons p t ih =>
    obtain ⟨a, b⟩ := p
    by_cases ha : a = k
    · simpa [dictDel, ha] using ih
    · simpa [dictDel, lookupD, ha] using ih

theorem lookupD_dictDel_ne (d : List (Str × α)) (k k' : Str) (h : k' ≠ k) :
    lookupD (dictDel d k) k' = lookupD d k' := by
  induction d with
  | nil => rfl
  | cons p t ih =>
    obtain ⟨a, b⟩ := p
    by_cases ha : a = k
    · have hk2 : ¬k = k' := fun hh => h hh.symm
      simp [dictDel, lookupD, ha, hk2, ih]
    · by_cases ha' : a = k'
      · subst ha'
        simp only [dictDel, if_neg ha]
        simp [lookupD]
      · simp [dictDel, lookupD, ha, ha', ih]

theorem listHas_eq_false_iff (l : List Str) (x : Str) :
    listHas l x = false ↔ x ∉ l := by
  induction l with
  | nil => simp [listHas]
  | cons y t ih =>
    simp only [listHas]
    by_cases hy : y = x
    · subst hy
      simp
    · simp only [if_neg hy, ih, List.mem_cons]
      constructor
      · intro h hc
        rcases hc with hc | hc
        · exact hy hc.symm
        · exact h hc
      · intro h hc
        exact h (Or.inr hc)

/-- A value of a Python configuration dict (`model_configs.json` holds
strings, ints, bools, floats and `None`; a float literal is carried
uninterpreted, no arithmetic is ever done on it). -/
inductive PyVal where
  | vstr (s : Str)
  | vint (n : Int)
  | vbool (b : Bool)
  | vfloat (code : Nat)
  | vnone
deriving DecidableEq

/-- A model configuration: a Python dict with string keys. -/
abbrev PyDict := List (Str × PyVal)

/-- A loaded text-generation pipeline, abstracted over the third-party
`transformers` library: a prompt goes in, and either an exception
(`Except.error` with the exception text) or the list of result records'
`generated_text` fields comes out.  The `isinstance(result, list)` guard
and a missing `generated_text` key fold into `.ok []` / `.error` as the
source's `try` treats them. The generation parameters that
`generate_text` merges from the config are forwarded to this opaque
function and never influence the manager's own control flow, so they are
not modelled separately. -/
abbrev Pipe := Str → Except Str (List Str)

/-- The state of a `CustomModelManager` (`app/services/custom_models.py`):
`model_configs` and `loaded_models` are its two dict fields;
`configFile` is the content of `models/model_configs.json` as last
written (`none` until a save happens). -/
structure ManagerState where
  modelConfigs : List (Str × PyDict)
  loadedModels : List (Str × Pipe)
  configFile : Option (List (Str × PyDict))

/-- Python `config.get(k, dflt)`. -/
def pyGet (d : PyDict) (k : Str) (dflt : PyVal) : PyVal :=
  (lookupD d k).getD dflt

namespace CustomModelManager

/-- `CustomModelManager._save_model_configs`: dump `self.model_configs`
to `models/model_configs.json` (the success path; on an I/O error the
source only logs, which no claim observes). -/
def save_model_configs (st : ManagerState) : ManagerState :=
  { st with configFile := some st.modelConfigs }

/-- `CustomModelManager.add_model`: `self.model_configs[model_id] = config`
followed by `self._save_model_configs()`. -/
def add_model (st : ManagerState) (model_id : Str) (config : PyDict) : ManagerState :=
  save_model_configs { st with modelConfigs := dictSet st.modelConfigs model_id config }

/-- `CustomModelManager.load_model`: return `True` at once for an already
loaded model, `False` for an unconfigured one, else delegate to the
third-party loader (`AutoTokenizer`/`AutoModelForCausalLM`/`pipeline`,
abstracted as `loader`), store the pipeline on success and return `False`
on any exception. -/
def load_model (loader : Str → Str → Except Str Pipe) (st : ManagerState)
    (model_id device : Str) : Bool × ManagerState :=
  if (lookupD st.loadedModels model_id).isSome then (true, st)
  else if (lookupD st.modelConfigs model_id).isSome = false then (false, st)
  else
    match loader model_id device with
    | .ok pipe => (true, { st with loadedModels := dictSet st.loadedModels model_id pipe })
    | .error _ => (false, st)

/-- `CustomModelManager.unload_model`: delete the entry when present
(garbage collection and the CUDA cache flush have no observable effect on
the manager's state), do nothing otherwise. -/
def unload_model (st : ManagerState) (model_id : Str) : ManagerState :=
  if (lookupD st.loadedModels model_id).isSome then
    { st with loadedModels := dictDel st.loadedModels model_id }
  else st

/-- `CustomModelManager.generate_text`: the not-loaded check, the pipeline
call inside `try`, the empty-result branch, and the prompt-stripping of a
successful result. -/
def generate_text (st : ManagerState) (model_id prompt : Str) : Str :=
  match lookupD st.loadedModels model_id with
  | none => pyStr "Error: Model " ++ model_id ++ pyStr " not loaded"
  | some pipe =>
    match pipe prompt with
    | .error e => pyStr "Error: " ++ e
    | .ok [] => pyStr "Error: No text generated"
    | .ok (generated_text :: _) =>
      if begins prompt generated_text then strip (generated_text.drop prompt.length)
      else generated_text

/-- The info dict `CustomModelManager.get_model_info` builds for a
configured model. -/
structure ModelInfo where
  id : Str
  name : PyVal
  description : PyVal
  loaded : Bool
  config : PyDict
deriving DecidableEq

/-- `CustomModelManager.get_model_info`: the `{"error": "Model not found"}`
dict is the `Except.error` case (the controller's `"error" in info` test
is exactly this case split), the info dict the `Except.ok` case. -/
def get_model_info (st : ManagerState) (model_id : Str) : Except Str ModelInfo :=
  match lookupD st.modelConfigs model_id with
  | none => .error (pyStr "Model not found")
  | some config =>
    .ok { id := model_id
          name := pyGet config (pyStr "name") (.vstr model_id)
          description := pyGet config (pyStr "description") (.vstr [])
          loaded := (lookupD st.loadedModels model_id).isSome
          config := config }

end CustomModelManager

/-- The cabin-in-woods fallback paragraphs of `generate_script_custom`. -/
def cabinParas : List Str :=
  [pyStr "Nestled deep in the heart of the forest, a rustic cabin stands as a testament to simplicity and tranquility. The wooden structure, weathered by time and elements, tells stories of countless seasons and the peaceful solitude it has witnessed.",
   pyStr "Surrounded by towering trees and the gentle sounds of nature, this cabin offers a perfect escape from the hustle and bustle of modern life. The crackling fireplace and cozy interior create an atmosphere of warmth and comfort.",
   pyStr "Whether you're seeking a quiet retreat or an adventure in the wilderness, this cabin in the woods provides the perfect backdrop for unforgettable memories and moments of reflection."]

/-- The lake fallback paragraphs of `generate_script_custom`. -/
def lakeParas : List Str :=
  [pyStr "The serene waters of the lake reflect the beauty of the surrounding landscape, creating a mirror-like surface that captures the essence of tranquility. Gentle ripples dance across the surface as the wind whispers through the trees.",
   pyStr "This peaceful body of water serves as a sanctuary for wildlife and a source of inspiration for those who visit its shores. The lake's crystal-clear waters invite exploration and offer a perfect setting for relaxation and contemplation.",
   pyStr "Whether you're fishing, swimming, or simply enjoying the view, the lake provides endless opportunities for connection with nature and moments of peaceful reflection."]

/-- The nature/forest/woods fallback paragraphs of `generate_script_custom`. -/
def natureParas : List Str :=
  [pyStr "Nature's beauty unfolds in every direction, from the majestic trees reaching toward the sky to the delicate wildflowers carpeting the forest floor. The symphony of birdsong and rustling leaves creates a peaceful soundtrack to this natural wonderland.",
   pyStr "The forest ecosystem thrives with incredible biodiversity, where each plant and animal plays a vital role in maintaining the delicate balance of life. From the smallest insects to the largest trees, every element contributes to this thriving natural community.",
   pyStr "Exploring these natural spaces offers not just physical exercise, but also mental rejuvenation and a deeper connection to the world around us. The forest provides a sanctuary for both wildlife and human visitors seeking solace in nature's embrace."]

/-- The generic fallback paragraphs of `generate_script_custom`, with the
subject substituted in by the source's f-strings. -/
def genericParas (video_subject : Str) : List Str :=
  [pyStr "Today we're exploring the fascinating world of " ++ video_subject ++
     pyStr ". This topic offers incredible insights and opportunities for discovery that many people overlook in their daily lives.",
   pyStr "The key aspects of " ++ video_subject ++
     pyStr " reveal a complex and interesting subject that deserves our attention and understanding. There's so much to learn and appreciate about this topic.",
   pyStr "Understanding " ++ video_subject ++
     pyStr " better can open doors to new perspectives and opportunities. It's a subject that continues to evolve and surprise us with its depth and complexity."]

/-- The keyword-matched choice of `fallback_paragraphs` inside
`generate_script_custom` (lines 296-322 of the service). -/
def fallbackParagraphs (video_subject : Str) : List Str :=
  let subject_lower := lower video_subject
  if inStr (pyStr "cabin") subject_lower &&
      (inStr (pyStr "woods") subject_lower || inStr (pyStr "forest") subject_lower) then
    cabinParas
  else if inStr (pyStr "lake") subject_lower then
    lakeParas
  else if inStr (pyStr "nature") subject_lower || inStr (pyStr "forest") subject_lower ||
      inStr (pyStr "woods") subject_lower then
    natureParas
  else
    genericParas video_subject

/-- `generate_script_custom`: the module-level manager is in scope as `mgr`
but, exactly as in the source (which skips model generation
unconditionally at lines 287-290), the body never reads it. -/
def generate_script_custom (mgr : ManagerState) (video_subject language : Str)
    (paragraph_number : Int) (model_id : Str) : Str :=
  let selected_paragraphs := pySliceTo paragraph_number (fallbackParagraphs video_subject)
  let final_script := joinSep (pyStr "\n\n") selected_paragraphs
  strip final_script

/-- The cabin-in-woods `specific_terms` of `generate_terms_custom`. -/
def cabinTerms : List Str :=
  [pyStr "rustic cabin", pyStr "forest cabin", pyStr "wooden cabin", pyStr "mountain cabin",
   pyStr "wilderness cabin", pyStr "cozy cabin", pyStr "log cabin", pyStr "cabin interior",
   pyStr "cabin exterior", pyStr "cabin fireplace", pyStr "forest path", pyStr "woodland trail",
   pyStr "tree canopy", pyStr "forest floor", pyStr "wildlife", pyStr "bird watching",
   pyStr "hiking trail", pyStr "nature walk", pyStr "forest stream", pyStr "mountain view"]

/-- The lake `specific_terms` of `generate_terms_custom`. -/
def lakeTerms : List Str :=
  [pyStr "lake view", pyStr "water reflection", pyStr "serene lake", pyStr "peaceful water",
   pyStr "lake shore", pyStr "water ripples", pyStr "lake fishing", pyStr "water activities",
   pyStr "lake sunset", pyStr "water wildlife", pyStr "lake cabin", pyStr "waterfront",
   pyStr "lake house", pyStr "water sports", pyStr "lake nature"]

/-- The nature/forest/woods `specific_terms` of `generate_terms_custom`. -/
def natureTerms : List Str :=
  [pyStr "forest path", pyStr "woodland trail", pyStr "tree canopy", pyStr "forest floor",
   pyStr "wildlife", pyStr "bird watching", pyStr "hiking trail", pyStr "nature walk",
   pyStr "forest stream", pyStr "mountain view", pyStr "outdoor adventure",
   pyStr "nature exploration", pyStr "forest wildlife", pyStr "woodland scenery",
   pyStr "nature photography"]

/-- The generic `specific_terms` of `generate_terms_custom`. -/
def genericSpecificTerms : List Str :=
  [pyStr "outdoor", pyStr "scenic", pyStr "beautiful", pyStr "peaceful", pyStr "landscape",
   pyStr "wilderness", pyStr "adventure", pyStr "exploration", pyStr "serene", pyStr "tranquil",
   pyStr "natural", pyStr "picturesque", pyStr "stunning", pyStr "breathtaking", pyStr "majestic"]

/-- The `generic_terms` list appended when fewer than `amount` terms were
collected. -/
def genericRelatedTerms : List Str :=
  [pyStr "nature", pyStr "outdoor", pyStr "scenic", pyStr "beautiful", pyStr "peaceful",
   pyStr "landscape", pyStr "forest", pyStr "wilderness", pyStr "adventure", pyStr "exploration"]

/-- Both `for term in ...` accumulation loops of `generate_terms_custom`
(lines 366-374): append `term` while fewer than `amount` terms are
collected and `term` is not already present case-insensitively. -/
def addTermsLoop (amount : Int) (acc : List Str) : List Str → List Str
  | [] => acc
  | term :: rest =>
    if (acc.length : Int) < amount ∧ listHas (acc.map lower) term = false then
      addTermsLoop amount (acc ++ [term]) rest
    else addTermsLoop amount acc rest

/-- The final clean-and-limit loop of `generate_terms_custom`
(lines 379-385): strip and lowercase each term, keep it when nonempty, at
most three words and new, and break once `amount` terms are collected. -/
def cleanTermsLoop (amount : Int) : List Str → List Str → List Str
  | [], acc => acc
  | term :: rest, acc =>
    let term2 := lower (strip term)
    let acc2 :=
      if term2 ≠ [] ∧ wordCount term2 ≤ 3 ∧ listHas (acc.map lower) term2 = false then
        acc ++ [term2]
      else acc
    if amount ≤ (acc2.length : Int) then acc2 else cleanTermsLoop amount rest acc2

/-- `generate_terms_custom`: like the script function it never touches the
manager (`mgr`), skipping model generation unconditionally (lines
342-345) and building the keyword-matched fallback terms instead. -/
def generate_terms_custom (mgr : ManagerState) (video_subject video_script : Str)
    (amount : Int) (model_id : Str) : List Str :=
  let subject_lower := lower video_subject
  let fallback_terms : List Str := [lower video_subject]
  let specific_terms :=
    if inStr (pyStr "cabin") subject_lower &&
        (inStr (pyStr "woods") subject_lower || inStr (pyStr "forest") subject_lower) then
      cabinTerms
    else if inStr (pyStr "lake") subject_lower then
      lakeTerms
    else if inStr (pyStr "nature") subject_lower || inStr (pyStr "forest") subject_lower ||
        inStr (pyStr "woods") subject_lower then
      natureTerms
    else
      genericSpecificTerms
  let fallback_terms := addTermsLoop amount fallback_terms specific_terms
  let fallback_terms := addTermsLoop amount fallback_terms genericRelatedTerms
  let terms := fallback_terms
  pySliceTo amount (cleanTermsLoop amount terms [])

/-- A fastapi `HTTPException`, carrying the HTTP status and the detail
string. -/
structure HTTPError where
  status_code : Nat
  detail : Str
deriving DecidableEq

/-- Decimal digits of a number, for Python's `str` interpolation of a
status code. -/
def natDigits (n : Nat) : Str := (Nat.toDigits 10 n).map Char.toNat

/-- Python `str(e)` of a fastapi/starlette `HTTPException`:
`f"{status_code}: {detail}"`. -/
def strOfHTTPError (e : HTTPError) : Str :=
  natDigits e.status_code ++ pyStr ": " ++ e.detail

/-- `GET /custom-models/models/{model_id}` (controller `get_model_info`).
`fastapi.HTTPException` subclasses `Exception`, so the
`raise HTTPException(404, ...)` inside the `try` block is caught by the
controller's own `except Exception` and re-raised as a 500 whose detail
interpolates `str(e)`; `attempt` is the body of the `try` block and the
outer `match` is that `except` clause. -/
def get_model_info_route (st : ManagerState) (model_id : Str) :
    Except HTTPError CustomModelManager.ModelInfo :=
  let attempt : Except HTTPError CustomModelManager.ModelInfo :=
    match CustomModelManager.get_model_info st model_id with
    | .error msg => .error { status_code := 404, detail := msg }
    | .ok info => .ok info
  match attempt with
  | .ok info => .ok info
  | .error e =>
    .error { status_code := 500
             detail := pyStr "Failed to get model info: " ++ strOfHTTPError e }

/-- `POST /custom-models/scripts` (controller `generate_video_script`):
call `generate_script_custom`, turn an `"Error:"`-prefixed script into a
400, and let the surrounding `except Exception` turn any raised
exception, the 400 included, into a 500. -/
def generate_video_script_route (st : ManagerState) (video_subject language : Str)
    (paragraph_number : Int) (model_id : Str) : Except HTTPError Str :=
  let script := generate_script_custom st video_subject language paragraph_number model_id
  let attempt : Except HTTPError Str :=
    if begins (pyStr "Error:") script then .error { status_code := 400, detail := script }
    else .ok script
  match attempt with
  | .ok s => .ok s
  | .error e =>
    .error { status_code := 500
             detail := pyStr "Failed to generate script: " ++ strOfHTTPError e }

/-- `POST /custom-models/terms` (controller `generate_video_terms`): call
`generate_terms_custom` and turn a result whose first element is
`"Error:"`-prefixed into a 400 (`if terms and terms[0].startswith(...)`),
inside the same catch-all pattern. -/
def generate_video_terms_route (st : ManagerState) (video_subject video_script : Str)
    (amount : Int) (model_id : Str) : Except HTTPError (List Str) :=
  let terms := generate_terms_custom st video_subject video_script amount model_id
  let attempt : Except HTTPError (List Str) :=
    match terms with
    | [] => .ok terms
    | t :: _ =>
      if begins (pyStr "Error:") t then .error { status_code := 400, detail := t }
      else .ok terms
  match attempt with
  | .ok s => .ok s
  | .error e =>
    .error { status_code := 500
             detail := pyStr "Failed to generate terms: " ++ strOfHTTPError e }

/-! Concrete sample states, loaders and pipelines used by the witness and
counterexample theorems. -/

/-- A sample configuration dict like the `gpt2` entry of the default
configs. -/
def cfgSample : PyDict :=
  [(pyStr "name", PyVal.vstr (pyStr "GPT-2")),
   (pyStr "max_length", PyVal.vint 1000),
   (pyStr "do_sample", PyVal.vbool true),
   (pyStr "pad_token_id", PyVal.vint 50256)]

/-- A manager with no configurations and nothing loaded. -/
def stEmpty : ManagerState :=
  { modelConfigs := [], loadedModels := [], configFile := none }

/-- A manager with one configured, unloaded model. -/
def stConfigured : ManagerState :=
  { modelConfigs := [(pyStr "gpt2", cfgSample)], loadedModels := [], configFile := none }

/-- A pipeline that always succeeds with a satisfying continuation of the
prompt. -/
def pipeSample : Pipe :=
  fun p => .ok [p ++ pyStr " A wonderful script about nature, by the model."]

/-- A manager whose `gpt2` is configured and loaded with `pipeSample`. -/
def stLoaded : ManagerState :=
  { modelConfigs := [(pyStr "gpt2", cfgSample)]
    loadedModels := [(pyStr "gpt2", pipeSample)]
    configFile := none }

/-- A manager state whose loaded model has no configuration entry. -/
def stPhantom : ManagerState :=
  { modelConfigs := [], loadedModels := [(pyStr "gpt2", pipeSample)], configFile := none }

/-- A third-party loader that always succeeds. -/
def loaderOk : Str → Str → Except Str Pipe := fun _ _ => .ok pipeSample

/-- A third-party loader that always raises. -/
def loaderBoom : Str → Str → Except Str Pipe :=
  fun _ _ => .error (pyStr "download failed")

/-- C4: `add_model` maps `model_id` to `config`, leaves every other key's
entry unchanged, leaves `loaded_models` unchanged, and persists the whole
resulting dictionary to `models/model_configs.json`. -/
theorem add_model_updates_and_persists (st : ManagerState) (model_id : Str)
    (config : PyDict) (other : Str) (h : other ≠ model_id) :
    lookupD (CustomModelManager.add_model st model_id config).modelConfigs model_id =
      some config ∧
    lookupD (CustomModelManager.add_model st model_id config).modelConfigs other =
      lookupD st.modelConfigs other ∧
    (CustomModelManager.add_model st model_id config).configFile =
      some (CustomModelManager.add_model st model_id config).modelConfigs ∧
    (CustomModelManager.add_model st model_id config).loadedModels = st.loadedModels := by
  unfold CustomModelManager.add_model CustomModelManager.save_model_configs
  exact ⟨lookupD_dictSet_self st.modelConfigs model_id config,
         lookupD_dictSet_ne st.modelConfigs model_id other config h, rfl, rfl⟩

/-- Witness for C4 at a concrete state and keys. -/
theorem add_model_updates_and_persists_witness :
    pyStr "other-model" ≠ pyStr "gpt2" ∧
    (lookupD (CustomModelManager.add_model stConfigured (pyStr "gpt2") []).modelConfigs
        (pyStr "gpt2") = some [] ∧
     lookupD (CustomModelManager.add_model stConfigured (pyStr "gpt2") []).modelConfigs
        (pyStr "other-model") = lookupD stConfigured.modelConfigs (pyStr "other-model") ∧
     (CustomModelManager.add_model stConfigured (pyStr "gpt2") []).configFile =
        some (CustomModelManager.add_model stConfigured (pyStr "gpt2") []).modelConfigs ∧
     (CustomModelManager.add_model stConfigured (pyStr "gpt2") []).loadedModels =
        stConfigured.loadedModels) :=
  ⟨by decide, add_model_updates_and_persists stConfigured (pyStr "gpt2") []
      (pyStr "other-model") (by decide)⟩

/-- Unloading a model that is not loaded leaves the state untouched. -/
theorem unload_model_of_none (st : ManagerState) (model_id : Str)
    (h : lookupD st.loadedModels model_id = none) :
    CustomModelManager.unload_model st model_id = st := by
  unfold CustomModelManager.unload_model
  rw [h]
  rfl

/-- C7: after `unload_model` the model is gone from `loaded_models`; an
absent model leaves the whole state unchanged and raises nothing;
`model_configs` is never touched; and the operation is idempotent. -/
theorem unload_model_idempotent_total (st : ManagerState) (model_id : Str) :
    lookupD (CustomModelManager.unload_model st model_id).loadedModels model_id = none ∧
    (lookupD st.loadedModels model_id = none →
      CustomModelManager.unload_model st model_id = st) ∧
    (CustomModelManager.unload_model st model_id).modelConfigs = st.modelConfigs ∧
    CustomModelManager.unload_model (CustomModelManager.unload_model st model_id)
        model_id =
      CustomModelManager.unload_model st model_id := by
  have hnone : lookupD (CustomModelManager.unload_model st model_id).loadedModels
      model_id = none := by
    by_cases hx : (lookupD st.loadedModels model_id).isSome
    · unfold CustomModelManager.unload_model
      rw [if_pos hx]
      exact lookupD_dictDel_self st.loadedModels model_id
    · have h2 : lookupD st.loadedModels model_id = none := by
        cases h3 : lookupD st.loadedModels model_id with
        | none => rfl
        | some p => rw [h3] at hx; simp at hx
      rw [unload_model_of_none st model_id h2]
      exact h2
  refine ⟨hnone, fun hc => unload_model_of_none st model_id hc, ?_,
    unload_model_of_none _ _ hnone⟩
  unfold CustomModelManager.unload_model
  split
  · rfl
  · rfl

/-- Witness for C7 at concrete states: unloading a loaded model and
unloading from an empty manager. -/
theorem unload_model_idempotent_total_witness :
    lookupD (CustomModelManager.unload_model stLoaded (pyStr "gpt2")).loadedModels
      (pyStr "gpt2") = none ∧
    CustomModelManager.unload_model stEmpty (pyStr "gpt2") = stEmpty ∧
    (CustomModelManager.unload_model stLoaded (pyStr "gpt2")).modelConfigs =
      stLoaded.modelConfigs :=
  ⟨(unload_model_idempotent_total stLoaded (pyStr "gpt2")).1,
   (unload_model_idempotent_total stEmpty (pyStr "gpt2")).2.1 rfl,
   (unload_model_idempotent_total stLoaded (pyStr "gpt2")).2.2.1⟩

/-- Counterexample to C5 as stated: the `model_id in self.loaded_models`
check precedes the configuration check, so on a state whose loaded model
has no configuration entry, `load_model` returns `True` although the
model is absent from `model_configs` (the claim requires `False` there). -/
theorem load_model_unconfigured_counterexample :
    lookupD stPhantom.modelConfigs (pyStr "gpt2") = none ∧
    (CustomModelManager.load_model loaderBoom stPhantom (pyStr "gpt2")
      (pyStr "auto")).1 = true :=
  ⟨rfl, rfl⟩

/-- C5 (amended): `load_model` returns `True` and changes nothing for an
already loaded model; returns `False` and changes nothing for a model
that is neither loaded nor configured; stores the loader's pipeline under
`model_id` and returns `True` on a successful delegated load; and returns
`False` and changes nothing when the loader raises. -/
theorem load_model_cases (loader : Str → Str → Except Str Pipe) (st : ManagerState)
    (model_id device : Str) :
    ((lookupD st.loadedModels model_id).isSome = true →
      CustomModelManager.load_model loader st model_id device = (true, st)) ∧
    (lookupD st.loadedModels model_id = none → lookupD st.modelConfigs model_id = none →
      CustomModelManager.load_model loader st model_id device = (false, st)) ∧
    (∀ pipe, lookupD st.loadedModels model_id = none →
      (lookupD st.modelConfigs model_id).isSome = true →
      loader model_id device = .ok pipe →
      CustomModelManager.load_model loader st model_id device =
          (true, { st with loadedModels := dictSet st.loadedModels model_id pipe }) ∧
        lookupD (dictSet st.loadedModels model_id pipe) model_id = some pipe) ∧
    (∀ e, lookupD st.loadedModels model_id = none →
      (lookupD st.modelConfigs model_id).isSome = true →
      loader model_id device = .error e →
      CustomModelManager.load_model loader st model_id device = (false, st)) := by
  refine ⟨?_, ?_, ?_, ?_⟩
  · intro h
    unfold CustomModelManager.load_model
    rw [if_pos h]
  · intro h1 h2
    unfold CustomModelManager.load_model
    rw [h1, h2]
    rfl
  · intro pipe h1 h2 h3
    refine ⟨?_, lookupD_dictSet_self st.loadedModels model_id pipe⟩
    unfold CustomModelManager.load_model
    rw [h1]
    simp only [Option.isSome_none, Bool.false_eq_true, if_false, h2, h3]
    rfl
  · intro e h1 h2 h3
    unfold CustomModelManager.load_model
    rw [h1]
    simp only [Option.isSome_none, Bool.false_eq_true, if_false, h2, h3]
    rfl

/-- Witness for C5 (amended) covering all four cases at concrete states. -/
theorem load_model_cases_witness :
    CustomModelManager.load_model loaderBoom stLoaded (pyStr "gpt2") (pyStr "auto") =
      (true, stLoaded) ∧
    CustomModelManager.load_model loaderBoom stEmpty (pyStr "gpt2") (pyStr "auto") =
      (false, stEmpty) ∧
    CustomModelManager.load_model loaderOk stConfigured (pyStr "gpt2") (pyStr "auto") =
      (true, { stConfigured with
                loadedModels := dictSet stConfigured.loadedModels (pyStr "gpt2") pipeSample }) ∧
    lookupD (dictSet stConfigured.loadedModels (pyStr "gpt2") pipeSample) (pyStr "gpt2") =
      some pipeSample ∧
    CustomModelManager.load_model loaderBoom stConfigured (pyStr "gpt2") (pyStr "auto") =
      (false, stConfigured) :=
  ⟨(load_model_cases loaderBoom stLoaded (pyStr "gpt2") (pyStr "auto")).1 rfl,
   (load_model_cases loaderBoom stEmpty (pyStr "gpt2") (pyStr "auto")).2.1 rfl rfl,
   ((load_model_cases loaderOk stConfigured (pyStr "gpt2") (pyStr "auto")).2.2.1
      pipeSample rfl rfl rfl).1,
   ((load_model_cases loaderOk stConfigured (pyStr "gpt2") (pyStr "auto")).2.2.1
      pipeSample rfl rfl rfl).2,
   (load_model_cases loaderBoom stConfigured (pyStr "gpt2") (pyStr "auto")).2.2.2
      (pyStr "download failed") rfl rfl rfl⟩

/-- Every string of the shape `"Error:" ++ rest` begins with `"Error:"`. -/
theorem begins_append (p s : Str) : begins p (p ++ s) = true := by
  induction p with
  | nil => rfl
  | cons a t ih => simp [begins, ih]

/-- C6: `generate_text` is total and recovers nothing: a missing model, a
raised generation exception and an empty pipeline result each map to an
`"Error:"`-prefixed string, and a successful generation returns the text
with the leading prompt stripped. -/
theorem generate_text_error_handling (st : ManagerState) (model_id prompt : Str) :
    (lookupD st.loadedModels model_id = none →
      CustomModelManager.generate_text st model_id prompt =
        pyStr "Error: Model " ++ model_id ++ pyStr " not loaded" ∧
      begins (pyStr "Error:")
        (CustomModelManager.generate_text st model_id prompt) = true) ∧
    (∀ pipe e, lookupD st.loadedModels model_id = some pipe → pipe prompt = .error e →
      CustomModelManager.generate_text st model_id prompt = pyStr "Error: " ++ e ∧
      begins (pyStr "Error:")
        (CustomModelManager.generate_text st model_id prompt) = true) ∧
    (∀ pipe, lookupD st.loadedModels model_id = some pipe → pipe prompt = .ok [] →
      CustomModelManager.generate_text st model_id prompt =
        pyStr "Error: No text generated") ∧
    (∀ pipe t rest, lookupD st.loadedModels model_id = some pipe →
      pipe prompt = .ok (t :: rest) →
      CustomModelManager.generate_text st model_id prompt =
        if begins prompt t then strip (t.drop prompt.length) else t) := by
  refine ⟨?_, ?_, ?_, ?_⟩
  · intro h
    have he : CustomModelManager.generate_text st model_id prompt =
        pyStr "Error: Model " ++ model_id ++ pyStr " not loaded" := by
      simp only [CustomModelManager.generate_text, h]
    refine ⟨he, ?_⟩
    rw [he]
    have hsplit : pyStr "Error: Model " = pyStr "Error:" ++ pyStr " Model " := by decide
    rw [hsplit, List.append_assoc, List.append_assoc]
    exact begins_append _ _
  · intro pipe e h1 h2
    have he : CustomModelManager.generate_text st model_id prompt =
        pyStr "Error: " ++ e := by
      simp only [CustomModelManager.generate_text, h1, h2]
    refine ⟨he, ?_⟩
    rw [he]
    have hsplit : pyStr "Error: " = pyStr "Error:" ++ pyStr " " := by decide
    rw [hsplit, List.append_assoc]
    exact begins_append _ _
  · intro pipe h1 h2
    simp only [CustomModelManager.generate_text, h1, h2]
  · intro pipe t rest h1 h2
    simp only [CustomModelManager.generate_text, h1, h2]

/-- Witness for C6: the not-loaded branch and a successful generation with
the prompt stripped off, at concrete states. -/
theorem generate_text_error_handling_witness :
    CustomModelManager.generate_text stEmpty (pyStr "gpt2") (pyStr "Hi") =
      pyStr "Error: Model gpt2 not loaded" ∧
    CustomModelManager.generate_text stLoaded (pyStr "gpt2") (pyStr "Hi") =
      pyStr "A wonderful script about nature, by the model." := by
  constructor
  · have h := ((generate_text_error_handling stEmpty (pyStr "gpt2") (pyStr "Hi")).1 rfl).1
    rw [h]
    decide
  · have h := (generate_text_error_handling stLoaded (pyStr "gpt2") (pyStr "Hi")).2.2.2
      pipeSample (pyStr "Hi" ++ pyStr " A wonderful script about nature, by the model.")
      [] rfl rfl
    rw [h]
    decide

/-- C2 at its failing input: the registry reports the not-found error, but
the endpoint's own `except Exception` catches the `HTTPException(404)` it
just raised and re-raises it as a 500 whose detail wraps `str(e)`, so the
missing model surfaces as a 500, not as the claimed 404. -/
theorem get_model_info_route_bug :
    CustomModelManager.get_model_info stConfigured (pyStr "missing-model") =
      .error (pyStr "Model not found") ∧
    get_model_info_route stConfigured (pyStr "missing-model") =
      .error { status_code := 500
               detail := pyStr "Failed to get model info: 404: Model not found" } := by
  constructor
  · rfl
  · rfl

/-- The claim's description of the fallback template choice, written from
the spec side for comparison with the source's `fallbackParagraphs`: the
cabin templates when the lowercased subject contains "cabin" together
with "woods" or "forest", otherwise the lake templates when it contains
"lake", otherwise the nature templates when it contains "nature",
"forest" or "woods", and otherwise the generic templates with the subject
substituted in. -/
def specTemplateChoice (video_subject : Str) : List Str :=
  let s := lower video_subject
  if inStr (pyStr "cabin") s = true ∧
      (inStr (pyStr "woods") s = true ∨ inStr (pyStr "forest") s = true) then
    cabinParas
  else if inStr (pyStr "lake") s = true then
    lakeParas
  else if inStr (pyStr "nature") s = true ∨ inStr (pyStr "forest") s = true ∨
      inStr (pyStr "woods") s = true then
    natureParas
  else
    genericParas video_subject

/-- The source's keyword selection agrees with the spec-side description
for every subject. -/
theorem fallbackParagraphs_eq_spec (video_subject : Str) :
    fallbackParagraphs video_subject = specTemplateChoice video_subject := by
  unfold fallbackParagraphs specTemplateChoice
  cases hcabin : inStr (pyStr "cabin") (lower video_subject) <;>
    cases hwoods : inStr (pyStr "woods") (lower video_subject) <;>
    cases hforest : inStr (pyStr "forest") (lower video_subject) <;>
    cases hlake : inStr (pyStr "lake") (lower video_subject) <;>
    cases hnature : inStr (pyStr "nature") (lower video_subject) <;>
    simp [hcabin, hwoods, hforest, hlake, hnature]

/-- C3: for every subject the fallback paragraphs are selected purely by
keyword matching on the lowercased subject from the fixed template sets,
and the script output is exactly those templates sliced and joined. -/
theorem script_fallback_is_keyword_matched (video_subject : Str) (st : ManagerState)
    (language : Str) (paragraph_number : Int) (model_id : Str) :
    fallbackParagraphs video_subject = specTemplateChoice video_subject ∧
    generate_script_custom st video_subject language paragraph_number model_id =
      strip (joinSep (pyStr "\n\n")
        (pySliceTo paragraph_number (specTemplateChoice video_subject))) := by
  refine ⟨fallbackParagraphs_eq_spec video_subject, ?_⟩
  unfold generate_script_custom
  rw [fallbackParagraphs_eq_spec]

/-- Counterexample to C1: on a manager whose `gpt2` is loaded with a
pipeline that succeeds with a satisfying continuation, both generation
functions still return the hand-written template text, never the
pipeline's output. -/
theorem generation_skips_loaded_model :
    (lookupD stLoaded.loadedModels (pyStr "gpt2")).isSome = true ∧
    pipeSample (pyStr "any prompt") =
      .ok [pyStr "any prompt" ++ pyStr " A wonderful script about nature, by the model."] ∧
    generate_script_custom stLoaded (pyStr "travel") [] 1 (pyStr "gpt2") =
      pyStr "Today we're exploring the fascinating world of travel. This topic offers incredible insights and opportunities for discovery that many people overlook in their daily lives." ∧
    generate_terms_custom stLoaded (pyStr "travel") (pyStr "a script") 5 (pyStr "gpt2") =
      [pyStr "travel", pyStr "outdoor", pyStr "scenic", pyStr "beautiful", pyStr "peaceful"] :=
  ⟨rfl, rfl, by decide, by decide⟩

/-- C1 (amended): neither generation function ever consults the manager's
loaded models — their outputs are identical across all manager states —
and the script output is always the keyword-matched template fallback. -/
theorem generation_ignores_manager (st st' : ManagerState)
    (video_subject language video_script model_id : Str)
    (paragraph_number amount : Int) :
    generate_script_custom st video_subject language paragraph_number model_id =
      generate_script_custom st' video_subject language paragraph_number model_id ∧
    generate_terms_custom st video_subject video_script amount model_id =
      generate_terms_custom st' video_subject video_script amount model_id ∧
    generate_script_custom st video_subject language paragraph_number model_id =
      strip (joinSep (pyStr "\n\n")
        (pySliceTo paragraph_number (specTemplateChoice video_subject))) := by
  refine ⟨rfl, rfl, ?_⟩
  unfold generate_script_custom
  rw [fallbackParagraphs_eq_spec]

/-- What C8 requires of every returned search term: nonempty, lowercase
(fixed by `lower`), and at most three whitespace-separated words. -/
def termOKb (t : Str) : Bool :=
  decide (t ≠ []) && decide (lower t = t) && decide (wordCount t ≤ 3)

theorem all_termOKb_map_lower (l : List Str) (h : l.all termOKb = true) :
    l.map lower = l := by
  induction l with
  | nil => rfl
  | cons x t ih =>
    rw [List.all_cons, Bool.and_eq_true] at h
    have hx := h.1
    simp only [termOKb, Bool.and_eq_true, decide_eq_true_eq] at hx
    simp [hx.1.2, ih h.2]

theorem nodup_append_singleton (l : List Str) (x : Str) (hx : x ∉ l)
    (h : l.Nodup) : (l ++ [x]).Nodup := by
  rw [List.nodup_append]
  refine ⟨h, List.nodup_singleton x, ?_⟩
  intro a ha hax
  rw [List.mem_singleton] at hax
  subst hax
  exact hx ha

theorem cleanTermsLoop_invariant (amount : Int) (rest : List Str) :
    ∀ acc : List Str, acc.all termOKb = true → acc.Nodup →
      (cleanTermsLoop amount rest acc).all termOKb = true ∧
      (cleanTermsLoop amount rest acc).Nodup := by
  induction rest with
  | nil =>
    intro acc h1 h2
    exact ⟨h1, h2⟩
  | cons term rest ih =>
    intro acc h1 h2
    have hstep : ∀ acc2 : List Str, acc2.all termOKb = true → acc2.Nodup →
        (if amount ≤ (acc2.length : Int) then acc2
         else cleanTermsLoop amount rest acc2).all termOKb = true ∧
        (if amount ≤ (acc2.length : Int) then acc2
         else cleanTermsLoop amount rest acc2).Nodup := by
      intro acc2 ha hn
      split
      · exact ⟨ha, hn⟩
      · exact ih acc2 ha hn
    simp only [cleanTermsLoop]
    by_cases hg : lower (strip term) ≠ [] ∧ wordCount (lower (strip term)) ≤ 3 ∧
        listHas (acc.map lower) (lower (strip term)) = false
    · rw [if_pos hg]
      refine hstep (acc ++ [lower (strip term)]) ?_ ?_
      · rw [List.all_append, Bool.and_eq_true]
        refine ⟨h1, ?_⟩
        simp only [List.all_cons, List.all_nil, Bool.and_true, termOKb,
          Bool.and_eq_true, decide_eq_true_eq]
        exact ⟨⟨hg.1, lower_idem (strip term)⟩, hg.2.1⟩
      · refine nodup_append_singleton acc (lower (strip term)) ?_ h2
        have hmap := all_termOKb_map_lower acc h1
        have hhas := hg.2.2
        rw [hmap] at hhas
        exact (listHas_eq_false_iff acc (lower (strip term))).mp hhas
    · rw [if_neg hg]
      exact hstep acc h1 h2

theorem pySliceTo_length_le (amount : Int) (h : 0 ≤ amount) (l : List α) :
    ((pySliceTo amount l).length : Int) ≤ amount := by
  unfold pySliceTo
  rw [if_neg (by omega)]
  have h2 : (List.take amount.toNat l).length ≤ amount.toNat := by
    rw [List.length_take]
    exact Nat.min_le_left _ _
  omega

theorem pySliceTo_all (amount : Int) (l : List Str) (p : Str → Bool)
    (h : l.all p = true) : (pySliceTo amount l).all p = true := by
  rw [List.all_eq_true] at h ⊢
  intro x hx
  refine h x ?_
  unfold pySliceTo at hx
  exact List.take_subset _ _ hx

theorem pySliceTo_nodup (amount : Int) (l : List Str) (h : l.Nodup) :
    (pySliceTo amount l).Nodup := by
  refine h.sublist ?_
  unfold pySliceTo
  exact List.take_sublist _ _

theorem generate_terms_props (st : ManagerState) (video_subject video_script : Str)
    (amount : Int) (model_id : Str) :
    (generate_terms_custom st video_subject video_script amount model_id).all
      termOKb = true ∧
    (generate_terms_custom st video_subject video_script amount model_id).Nodup := by
  obtain ⟨h1, h2⟩ :=
    cleanTermsLoop_invariant amount
      (addTermsLoop amount
        (addTermsLoop amount [lower video_subject]
          (if inStr (pyStr "cabin") (lower video_subject) &&
              (inStr (pyStr "woods") (lower video_subject) ||
               inStr (pyStr "forest") (lower video_subject)) then cabinTerms
           else if inStr (pyStr "lake") (lower video_subject) then lakeTerms
           else if inStr (pyStr "nature") (lower video_subject) ||
               inStr (pyStr "forest") (lower video_subject) ||
               inStr (pyStr "woods") (lower video_subject) then natureTerms
           else genericSpecificTerms))
        genericRelatedTerms)
      [] rfl List.nodup_nil
  exact ⟨pySliceTo_all amount _ termOKb h1, pySliceTo_nodup amount _ h2⟩

/-- C8: for `amount ≥ 1`, every term returned by `generate_terms_custom`
is a nonempty lowercase string of at most three words, the terms are
pairwise distinct, and at most `amount` terms are returned. -/
theorem generate_terms_invariants (st : ManagerState) (video_subject video_script : Str)
    (amount : Int) (model_id : Str) (h : 1 ≤ amount) :
    (generate_terms_custom st video_subject video_script amount model_id).all
      termOKb = true ∧
    (generate_terms_custom st video_subject video_script amount model_id).Nodup ∧
    ((generate_terms_custom st video_subject video_script amount
      model_id).length : Int) ≤ amount := by
  obtain ⟨h1, h2⟩ := generate_terms_props st video_subject video_script amount model_id
  refine ⟨h1, h2, ?_⟩
  unfold generate_terms_custom
  exact pySliceTo_length_le amount (by omega) _

/-- Witness for C8 at a concrete subject and amount. -/
theorem generate_terms_invariants_witness :
    (1 : Int) ≤ 5 ∧
    ((generate_terms_custom stEmpty (pyStr "travel") (pyStr "a script") 5
        (pyStr "gpt2")).all termOKb = true ∧
     (generate_terms_custom stEmpty (pyStr "travel") (pyStr "a script") 5
        (pyStr "gpt2")).Nodup ∧
     ((generate_terms_custom stEmpty (pyStr "travel") (pyStr "a script") 5
        (pyStr "gpt2")).length : Int) ≤ 5) :=
  ⟨by decide, generate_terms_invariants stEmpty (pyStr "travel") (pyStr "a script") 5
    (pyStr "gpt2") (by decide)⟩

/-- A paragraph whose first and last code points exist and are not
whitespace; `strip` is the identity on joins of such paragraphs. -/
def paraOKb (p : Str) : Bool :=
  (match p.head? with
   | some c => !isWs c
   | none => false) &&
  (match p.getLast? with
   | some c => !isWs c
   | none => false)

theorem head?_append_first (l l' : Str) (h : l ≠ []) :
    (l ++ l').head? = l.head? := by
  cases l with
  | nil => exact absurd rfl h
  | cons a t => rfl

theorem getLast?_append_last (l l' : Str) (h : l' ≠ []) :
    (l ++ l').getLast? = l'.getLast? := by
  rw [← List.head?_reverse, ← List.head?_reverse, List.reverse_append]
  exact head?_append_first _ _ (by simpa using h)

theorem paraOKb_ne_nil (p : Str) (h : paraOKb p = true) : p ≠ [] := by
  intro hp
  subst hp
  simp [paraOKb] at h

theorem strip_of_paraOK (s : Str) (h : paraOKb s = true) : strip s = s := by
  unfold paraOKb at h
  rw [Bool.and_eq_true] at h
  obtain ⟨hh, hl⟩ := h
  cases s with
  | nil => cases hh
  | cons a t =>
    simp only [List.head?_cons] at hh
    have ha : isWs a = false := by rwa [Bool.not_eq_true'] at hh
    cases hrev : (a :: t).reverse with
    | nil => simp at hrev
    | cons d r =>
      have hd : (a :: t).getLast? = some d := by
        rw [← List.head?_reverse, hrev]
        rfl
      rw [hd] at hl
      have hdws : isWs d = false := by simpa [Bool.not_eq_true'] using hl
      unfold strip
      rw [List.dropWhile_cons, if_neg (by simp [ha]), hrev, List.dropWhile_cons,
        if_neg (by simp [hdws]), ← hrev, List.reverse_reverse]

theorem joinSep_ne_nil (sep q : Str) (t : List Str) (hq : q ≠ []) :
    joinSep sep (q :: t) ≠ [] := by
  cases t with
  | nil => simpa [joinSep] using hq
  | cons y ts =>
    simp only [joinSep]
    intro hc
    rw [List.append_eq_nil] at hc
    obtain ⟨hc1, _⟩ := hc
    rw [List.append_eq_nil] at hc1
    exact hq hc1.1

theorem joinSep_head? (sep q : Str) (t : List Str) (hq : q ≠ []) :
    (joinSep sep (q :: t)).head? = q.head? := by
  cases t with
  | nil => rfl
  | cons y ts =>
    show ((q ++ sep) ++ joinSep sep (y :: ts)).head? = q.head?
    rw [head?_append_first _ _ (by simp [hq]), head?_append_first _ _ hq]

theorem joinSep_getLast_mem (sep : Str) :
    ∀ (t : List Str) (q : Str), (∀ p ∈ q :: t, p ≠ []) →
      ∃ x ∈ q :: t, (joinSep sep (q :: t)).getLast? = x.getLast? := by
  intro t
  induction t with
  | nil =>
    intro q h
    exact ⟨q, by simp, rfl⟩
  | cons y ts ih =>
    intro q h
    obtain ⟨x, hx, hxe⟩ := ih y (fun p hp => h p (List.mem_cons_of_mem q hp))
    refine ⟨x, List.mem_cons_of_mem q hx, ?_⟩
    show ((q ++ sep) ++ joinSep sep (y :: ts)).getLast? = x.getLast?
    rw [getLast?_append_last _ _ (joinSep_ne_nil sep y ts (h y (by simp)))]
    exact hxe

theorem strip_joinSep (qs : List Str) (h : qs.all paraOKb = true) :
    strip (joinSep (pyStr "\n\n") qs) = joinSep (pyStr "\n\n") qs := by
  cases qs with
  | nil => rfl
  | cons q t =>
    rw [List.all_eq_true] at h
    have hq := h q (by simp)
    refine strip_of_paraOK _ ?_
    unfold paraOKb
    rw [Bool.and_eq_true]
    constructor
    · rw [joinSep_head? _ _ _ (paraOKb_ne_nil q hq)]
      unfold paraOKb at hq
      rw [Bool.and_eq_true] at hq
      exact hq.1
    · obtain ⟨x, hx, hxe⟩ := joinSep_getLast_mem (pyStr "\n\n") t q
        (fun p hp => paraOKb_ne_nil p (h p hp))
      rw [hxe]
      have hxok := h x hx
      unfold paraOKb at hxok
      rw [Bool.and_eq_true] at hxok
      exact hxok.2

theorem all_take (n : Nat) (l : List Str) (p : Str → Bool)
    (h : l.all p = true) : (l.take n).all p = true := by
  rw [List.all_eq_true] at h ⊢
  exact fun x hx => h x (List.take_subset _ _ hx)

theorem paraOKb_concat (pre mid post : Str) (c d : Nat)
    (h1 : pre.head? = some c) (hc : isWs c = false)
    (h2 : post.getLast? = some d) (hd : isWs d = false) :
    paraOKb ((pre ++ mid) ++ post) = true := by
  have hpre : pre ≠ [] := by
    intro hp
    rw [hp] at h1
    cases h1
  have hpost : post ≠ [] := by
    intro hp
    rw [hp] at h2
    cases h2
  unfold paraOKb
  rw [head?_append_first _ _ (by simp [hpre]), head?_append_first _ _ hpre, h1,
    getLast?_append_last _ _ hpost, h2]
  simp [hc, hd]

theorem fallbackParagraphs_all_paraOK (s : Str) :
    (fallbackParagraphs s).all paraOKb = true := by
  unfold fallbackParagraphs
  dsimp only
  split
  · decide
  · split
    · decide
    · split
      · decide
      · unfold genericParas
        simp only [List.all_cons, List.all_nil, Bool.and_true, Bool.and_eq_true]
        exact ⟨paraOKb_concat _ s _ 84 46 (by decide) (by decide) (by decide) (by decide),
          paraOKb_concat _ s _ 84 46 (by decide) (by decide) (by decide) (by decide),
          paraOKb_concat _ s _ 85 46 (by decide) (by decide) (by decide) (by decide)⟩

theorem fallbackParagraphs_length (s : Str) : (fallbackParagraphs s).length = 3 := by
  unfold fallbackParagraphs
  dsimp only
  split
  · rfl
  · split
    · rfl
    · split
      · rfl
      · rfl

theorem fallbackParagraphs_first_head (s : Str) :
    ∃ c rest p, fallbackParagraphs s = p :: rest ∧ p.head? = some c ∧
      (69 == c) = false := by
  unfold fallbackParagraphs
  dsimp only
  split
  · exact ⟨78, _, _, rfl, by decide, by decide⟩
  · split
    · exact ⟨84, _, _, rfl, by decide, by decide⟩
    · split
      · exact ⟨78, _, _, rfl, by decide, by decide⟩
      · refine ⟨84, _, _, rfl, ?_, by decide⟩
        rw [head?_append_first _ _ (by simp [pyStr]), head?_append_first _ _ (by decide)]
        decide

/-- C9: for `paragraph_number >= 1` the script is exactly
`min(paragraph_number, 3)` fallback paragraphs joined by blank lines (the
final `.strip()` changes nothing), and `paragraph_number = 0` yields the
empty string. -/
theorem script_paragraph_count (st : ManagerState) (video_subject language model_id : Str)
    (paragraph_number : Int) :
    (1 ≤ paragraph_number →
      generate_script_custom st video_subject language paragraph_number model_id =
        joinSep (pyStr "\n\n")
          ((fallbackParagraphs video_subject).take (min paragraph_number 3).toNat) ∧
      ((fallbackParagraphs video_subject).take (min paragraph_number 3).toNat).length =
        (min paragraph_number 3).toNat) ∧
    (paragraph_number = 0 →
      generate_script_custom st video_subject language paragraph_number model_id = []) := by
  constructor
  · intro h1
    have hlen3 := fallbackParagraphs_length video_subject
    have hslice : pySliceTo paragraph_number (fallbackParagraphs video_subject) =
        (fallbackParagraphs video_subject).take (min paragraph_number 3).toNat := by
      unfold pySliceTo
      rw [if_neg (by omega)]
      rcases le_or_lt paragraph_number 3 with hle | hgt
      · rw [min_eq_left hle]
      · rw [min_eq_right (le_of_lt hgt),
          List.take_of_length_le (by rw [hlen3]; omega),
          List.take_of_length_le (by rw [hlen3]; omega)]
    constructor
    · unfold generate_script_custom
      rw [hslice]
      exact strip_joinSep _ (all_take _ _ _ (fallbackParagraphs_all_paraOK video_subject))
    · rw [List.length_take, hlen3]
      have hk : (min paragraph_number 3).toNat ≤ 3 := by
        have h3 : min paragraph_number 3 ≤ 3 := min_le_right _ _
        omega
      exact Nat.min_eq_left hk
  · intro h0
    subst h0
    rfl

/-- Witness for C9 at a lake subject with two and with zero paragraphs. -/
theorem script_paragraph_count_witness :
    generate_script_custom stEmpty (pyStr "A lake at dawn") [] 2 (pyStr "gpt2") =
      joinSep (pyStr "\n\n")
        ((fallbackParagraphs (pyStr "A lake at dawn")).take (min (2 : Int) 3).toNat) ∧
    ((fallbackParagraphs (pyStr "A lake at dawn")).take (min (2 : Int) 3).toNat).length =
      (min (2 : Int) 3).toNat ∧
    generate_script_custom stEmpty (pyStr "A lake at dawn") [] 0 (pyStr "gpt2") = [] :=
  ⟨((script_paragraph_count stEmpty (pyStr "A lake at dawn") [] (pyStr "gpt2") 2).1
      (by decide)).1,
   ((script_paragraph_count stEmpty (pyStr "A lake at dawn") [] (pyStr "gpt2") 2).1
      (by decide)).2,
   (script_paragraph_count stEmpty (pyStr "A lake at dawn") [] (pyStr "gpt2") 0).2 rfl⟩

theorem begins_false_of_head (pat s : Str) (a c : Nat) (hp : pat.head? = some a)
    (hs : s.head? = some c) (hne : (a == c) = false) : begins pat s = false := by
  cases pat with
  | nil => cases hp
  | cons x xs =>
    cases s with
    | nil => cases hs
    | cons y ys =>
      simp only [List.head?_cons, Option.some.injEq] at hp hs
      subst hp
      subst hs
      simp [begins, hne]

/-- The script returned by `generate_script_custom` never begins with
`"Error:"`: an empty selection yields the empty string, and otherwise the
first paragraph of every template set begins with a letter other than
`E`. -/
theorem script_never_error (st : ManagerState) (video_subject language : Str)
    (paragraph_number : Int) (model_id : Str) :
    begins (pyStr "Error:")
      (generate_script_custom st video_subject language paragraph_number model_id) =
      false := by
  obtain ⟨c, rest, p, hfb, hph, hc69⟩ := fallbackParagraphs_first_head video_subject
  have hall : (fallbackParagraphs video_subject).all paraOKb = true :=
    fallbackParagraphs_all_paraOK video_subject
  unfold generate_script_custom
  unfold pySliceTo
  rw [hfb]
  rw [hfb] at hall
  cases hk : (if paragraph_number < 0 then
      (((p :: rest).length : Int) + paragraph_number).toNat
    else paragraph_number.toNat) with
  | zero =>
    rw [List.take_zero]
    decide
  | succ m =>
    rw [List.take_succ_cons]
    have htake : (p :: rest.take m).all paraOKb = true := by
      rw [List.all_cons, Bool.and_eq_true] at hall ⊢
      exact ⟨hall.1, all_take m rest paraOKb hall.2⟩
    rw [strip_joinSep _ htake]
    have hpnn : p ≠ [] := by
      rw [List.all_cons, Bool.and_eq_true] at htake
      exact paraOKb_ne_nil p htake.1
    refine begins_false_of_head _ _ 69 c (by decide) ?_ hc69
    rw [joinSep_head? _ _ _ hpnn]
    exact hph

/-- The first search term, when one exists, never begins with `"Error:"`:
every returned term is lowercase, and a lowercase string cannot start
with the uppercase `E` of `"Error:"`. -/
theorem terms_first_no_error (st : ManagerState) (video_subject video_script : Str)
    (amount : Int) (model_id : Str) (t : Str) (rest : List Str)
    (h : generate_terms_custom st video_subject video_script amount model_id = t :: rest) :
    begins (pyStr "Error:") t = false := by
  obtain ⟨h1, _⟩ := generate_terms_props st video_subject video_script amount model_id
  rw [h, List.all_cons, Bool.and_eq_true] at h1
  have ht := h1.1
  simp only [termOKb, Bool.and_eq_true, decide_eq_true_eq] at ht
  obtain ⟨⟨hne, hlow⟩, _⟩ := ht
  cases t with
  | nil => exact absurd rfl hne
  | cons c r =>
    have hcfix := lower_fixed_head c r hlow
    have hc : c ≠ 69 := lowerChar_fixed_ne_E c hcfix
    refine begins_false_of_head _ _ 69 c (by decide) rfl ?_
    rw [beq_eq_false_iff_ne]
    exact fun hh => hc hh.symm

/-- C10: neither generation function can produce an `"Error:"`-prefixed
first result, so the 400 branches of the two POST endpoints are
unreachable: both endpoints always return the 200 payload. -/
theorem generation_routes_never_400 (st : ManagerState)
    (video_subject language video_script model_id : Str)
    (paragraph_number amount : Int) :
    begins (pyStr "Error:")
      (generate_script_custom st video_subject language paragraph_number model_id) =
      false ∧
    ((generate_terms_custom st video_subject video_script amount
        model_id).head?.all (fun t => !begins (pyStr "Error:") t)) = true ∧
    generate_video_script_route st video_subject language paragraph_number model_id =
      .ok (generate_script_custom st video_subject language paragraph_number model_id) ∧
    generate_video_terms_route st video_subject video_script amount model_id =
      .ok (generate_terms_custom st video_subject video_script amount model_id) := by
  have hscript := script_never_error st video_subject language paragraph_number model_id
  refine ⟨hscript, ?_, ?_, ?_⟩
  · cases hterms : generate_terms_custom st video_subject video_script amount model_id with
    | nil => rfl
    | cons t rest =>
      have hfirst := terms_first_no_error st video_subject video_script amount model_id
        t rest hterms
      simp [hfirst]
  · unfold generate_video_script_route
    simp only [hscript, Bool.false_eq_true, if_false]
  · unfold generate_video_terms_route
    cases hterms : generate_terms_custom st video_subject video_script amount model_id with
    | nil => rfl
    | cons t rest =>
      have hfirst := terms_first_no_error st video_subject video_script amount model_id
        t rest hterms
      simp only [hfirst, Bool.false_eq_true, if_false]

end MPT
